import Mathlib

/-!
Shallow embedding of the SignSynthAcademy sources (src/types.ts, src/constants.ts,
src/services/aiService.ts, src/components/TeacherFeedback.tsx (useProgress hook),
src/App.tsx) together with theorems settling the specification claims.

JavaScript values that can escape the typed layer (everything produced by
`JSON.parse`) are modelled by the inductive `JSValue`.  Remote calls and
`Math.random` draws are environment inputs; each embedded operation takes the
outcome of its awaited calls as an explicit argument.
-/

namespace SignSynth

/-- A JavaScript value, as produced by `JSON.parse` or an object literal. -/
inductive JSValue where
  | null
  | undefined
  | bool (b : Bool)
  | num (n : Int)
  | str (s : String)
  | arr (elems : List JSValue)
  | obj (fields : List (String × JSValue))

/-- JavaScript property access `v[key]`: the field's value on an object that
has the key, `undefined` otherwise (the sources only access properties of
objects). -/
def JSValue.getField (v : JSValue) (key : String) : JSValue :=
  match v with
  | .obj fields =>
    match fields.lookup key with
    | some x => x
    | none => .undefined
  | _ => .undefined

/-- JavaScript truthiness, as used by `if (result.success)` in src/App.tsx. -/
def JSValue.truthy : JSValue → Bool
  | .null => false
  | .undefined => false
  | .bool b => b
  | .num n => n != 0
  | .str s => s != ""
  | .arr _ => true
  | .obj _ => true

/-- src/types.ts: difficulty tiers. -/
inductive Difficulty where
  | Beginner
  | Intermediate
  | Conversational
deriving DecidableEq

/-- src/types.ts: `FeedbackResponse` (success flag, message, optional
correction-image prompt). -/
structure FeedbackResponse where
  success : Bool
  message : String
  correctionPrompt : Option String
deriving DecidableEq

/-- The object literal a `FeedbackResponse` denotes when it flows into
untyped positions (fields in the order they are written in the sources;
the `correctionPrompt` key is present only when the literal includes it). -/
def FeedbackResponse.toJS (r : FeedbackResponse) : JSValue :=
  .obj ([("success", .bool r.success), ("message", .str r.message)] ++
    (match r.correctionPrompt with
     | some c => [("correctionPrompt", .str c)]
     | none => []))

/-- src/types.ts: `StudentProgress`. -/
structure StudentProgress where
  xp : Int
  level : Difficulty
  streakDays : Int
  learnedSigns : List String
deriving DecidableEq

/-- src/types.ts: `Lesson`. -/
structure Lesson where
  id : String
  target : String
  description : String
  difficulty : Difficulty
  prompt : String
deriving DecidableEq

/-- src/types.ts: `AppState`. -/
inductive AppState where
  | IDLE
  | GENERATING_REF
  | WAITING_FOR_USER
  | LISTENING
  | ANALYZING
  | FEEDBACK
  | SUCCESS
deriving DecidableEq

/-- src/constants.ts: `INITIAL_PROGRESS`. -/
def INITIAL_PROGRESS : StudentProgress :=
  { xp := 0, level := .Beginner, streakDays := 1, learnedSigns := [] }

def difficultyToStr : Difficulty → String
  | .Beginner => "Beginner"
  | .Intermediate => "Intermediate"
  | .Conversational => "Conversational"

/-- The JSON document a `StudentProgress` record serializes to. -/
def StudentProgress.toJS (p : StudentProgress) : JSValue :=
  .obj [("xp", .num p.xp), ("level", .str (difficultyToStr p.level)),
        ("streakDays", .num p.streakDays),
        ("learnedSigns", .arr (p.learnedSigns.map .str))]

/-- src/constants.ts: `ALPHABET_LESSONS`. -/
def ALPHABET_LESSONS : List Lesson :=
  [{ id := "A", target := "A",
     description := "Make a fist with your thumb resting against the side of your index finger.",
     difficulty := .Beginner,
     prompt := "photorealistic close-up of a hand signing ASL letter A, neutral background, 4k" },
   { id := "B", target := "B",
     description := "Open palm, fingers straight up and together, thumb tucked across palm.",
     difficulty := .Beginner,
     prompt := "photorealistic close-up of a hand signing ASL letter B, neutral background, 4k" },
   { id := "C", target := "C",
     description := "Curve your fingers and thumb to form a C shape.",
     difficulty := .Beginner,
     prompt := "photorealistic close-up of a hand signing ASL letter C, side profile, neutral background, 4k" }]

/-! ## Progress store (useProgress hook, src/components/TeacherFeedback.tsx part 2) -/

/-- The `useState` initializer of `useProgress`:
`const saved = localStorage.getItem(..); return saved ? JSON.parse(saved) : INITIAL_PROGRESS;`.
The stored record is modelled by `saved`: `none` when `localStorage.getItem`
returned a falsy value (absent record or empty string), `some (.ok v)` when a
record is present and `JSON.parse` yields `v`, and `some (.error e)` when a
record is present but `JSON.parse` throws.  The initializer has no handler, so
a parse exception propagates (`Except.error`). -/
def loadProgress (saved : Option (Except Unit JSValue)) : Except Unit JSValue :=
  match saved with
  | none => .ok INITIAL_PROGRESS.toJS
  | some (.ok v) => .ok v
  | some (.error e) => .error e

/-- `addXP` from `useProgress`: `{ ...prev, xp: prev.xp + amount }`. -/
def addXP (amount : Int) (p : StudentProgress) : StudentProgress :=
  { p with xp := p.xp + amount }

/-- `markLearned` from `useProgress`: returns `prev` unchanged when
`prev.learnedSigns.includes(sign)`, otherwise appends `sign`. -/
def markLearned (sign : String) (p : StudentProgress) : StudentProgress :=
  if sign ∈ p.learnedSigns then p
  else { p with learnedSigns := p.learnedSigns ++ [sign] }

/-! ## AI gateway (src/services/aiService.ts) -/

/-- Outcome of the primary path of `analyzeHandShape`, up to and including
`JSON.parse(text)`:
* `noApiKey` — `ai` is null, the guard throws before any request;
* `requestThrow` — `ai.models.generateContent` rejects (network failure etc.);
* `response textParse` — a response arrived; `none` means `response.text` was
  falsy, in which case the code parses the literal `"\x7b\x7d"` (yielding the empty
  object); `some r` means the text was present and `JSON.parse` of it either
  returned `r`'s value or threw. -/
inductive PrimaryPath where
  | noApiKey
  | requestThrow
  | response (textParse : Option (Except Unit JSValue))

/-- The catch handler of `analyzeHandShape` runs exactly when the primary path
throws: missing credentials, a rejected request, or a `JSON.parse` exception. -/
def primaryThrows : PrimaryPath → Bool
  | .noApiKey => true
  | .requestThrow => true
  | .response (some (.error _)) => true
  | .response (some (.ok _)) => false
  | .response none => false

/-- The random draws consumed by the mock fallback of `analyzeHandShape`:
`isSuccessDraw` models `Math.random() > 0.4` and `errIdx` models
`Math.floor(Math.random() * errors.length)`. -/
structure FallbackRand where
  isSuccessDraw : Bool
  errIdx : Fin 3

/-- The `errors` pool of critique templates in the mock fallback. -/
def fallbackErrors (target : String) : List String :=
  ["Your thumb is tucked too tight for '" ++ target ++ "'. Relax it slightly.",
   "Your fingers need to be straighter. Look at the reference.",
   "Rotate your wrist slightly outward to match the angle."]

/-- The mock fallback of `analyzeHandShape` (its catch handler, after the
simulated delay). -/
def analyzeFallback (rand : FallbackRand) (target : String)
    (spokenQuestion : Option String) : FeedbackResponse :=
  match spokenQuestion with
  | some q =>
    { success := false,
      message := "I heard you ask: \"" ++ q ++
        "\". Based on the image, your index finger looks good, but check your thumb placement.",
      correctionPrompt := some ("photorealistic hand signing ASL letter " ++ target) }
  | none =>
    if rand.isSuccessDraw then
      { success := true,
        message := "Excellent! Your shape for '" ++ target ++
          "' looks perfect based on our simulation.",
        correctionPrompt := none }
    else
      { success := false,
        message := (fallbackErrors target).getD rand.errIdx.val "",
        correctionPrompt := some ("photorealistic hand signing ASL letter " ++ target ++
          " with emphasis on correct thumb placement, highlighted green outlines") }

/-- `analyzeHandShape` from src/services/aiService.ts.  On the primary path the
function returns `JSON.parse(response.text || "\x7b\x7d")` with no shape check; the
catch handler substitutes the mock fallback whenever the primary path throws. -/
def analyzeHandShape (env : PrimaryPath) (rand : FallbackRand) (target : String)
    (spokenQuestion : Option String) : JSValue :=
  match env with
  | .response (some (.ok v)) => v
  | .response none => JSValue.obj []
  | .response (some (.error _)) => (analyzeFallback rand target spokenQuestion).toJS
  | .noApiKey => (analyzeFallback rand target spokenQuestion).toJS
  | .requestThrow => (analyzeFallback rand target spokenQuestion).toJS

/-- A value has the `FeedbackResponse` shape promised to callers: a boolean
`success` field and a non-empty string `message` field. -/
def isWellFormedFeedback (v : JSValue) : Bool :=
  (match v.getField "success" with
   | .bool _ => true
   | _ => false) &&
  (match v.getField "message" with
   | .str s => s != ""
   | _ => false)

/-! ## Application state machine (src/App.tsx) -/

/-- The slice of the App component's state that the analysis path touches:
`appState`, `feedback` (a JS value, since `setFeedback(result)` stores whatever
`analyzeHandShape` returned), `progress`, and the active lesson. -/
structure MachineState where
  appState : AppState
  feedback : Option JSValue
  progress : StudentProgress
  currentLesson : Lesson

/-- The synchronous prefix of `performAnalysis`: the re-entrancy guard, then
`setAppState(ANALYZING); setFeedback(null)`.  The boolean reports whether an
analysis was started (the guard passed). -/
def performAnalysisStart (s : MachineState) : MachineState × Bool :=
  if s.appState = .ANALYZING ∨ s.appState = .GENERATING_REF then (s, false)
  else ({ s with appState := .ANALYZING, feedback := none }, true)

/-- The continuation of `performAnalysis` after `await analyzeHandShape(..)`
resolves (`.ok`) or the try block throws (`.error`). -/
def performAnalysisResolve (result : Except Unit JSValue) (s : MachineState) :
    MachineState :=
  match result with
  | .ok v =>
    let s1 := { s with feedback := some v }
    if (v.getField "success").truthy then
      { s1 with appState := .SUCCESS,
                progress := markLearned s.currentLesson.target (addXP 50 s1.progress) }
    else
      { s1 with appState := .FEEDBACK }
  | .error _ => { s with appState := .WAITING_FOR_USER }

/-- `performAnalysis` from src/App.tsx, with the awaited analysis outcome
supplied by the environment as `result`. -/
def performAnalysis (result : Except Unit JSValue) (s : MachineState) :
    MachineState × Bool :=
  let (s1, started) := performAnalysisStart s
  if started then (performAnalysisResolve result s1, true) else (s, false)

/-- `handleCapture` from src/App.tsx: accepts only in `WAITING_FOR_USER`,
`FEEDBACK` or `SUCCESS`, then submits the screenshot (if any) for analysis. -/
def handleCapture (screenshot : Option String) (result : Except Unit JSValue)
    (s : MachineState) : MachineState × Bool :=
  if s.appState ≠ .WAITING_FOR_USER ∧ s.appState ≠ .FEEDBACK ∧ s.appState ≠ .SUCCESS then
    (s, false)
  else
    match screenshot with
    | some _ => performAnalysis result s
    | none => (s, false)

/-- One firing of the auto-check interval (src/App.tsx effect): the interval is
armed only when auto mode is on, the classroom tab is active and the state is
`WAITING_FOR_USER`/`FEEDBACK`/`SUCCESS`; each tick takes a screenshot and, when
one is available, calls `performAnalysis`. -/
def autoCaptureTick (isAutoMode classroomTab : Bool) (screenshot : Option String)
    (result : Except Unit JSValue) (s : MachineState) : MachineState × Bool :=
  if isAutoMode ∧ classroomTab ∧
      (s.appState = .WAITING_FOR_USER ∨ s.appState = .FEEDBACK ∨ s.appState = .SUCCESS) then
    match screenshot with
    | some _ => performAnalysis result s
    | none => (s, false)
  else (s, false)

/-- The default branch of `processVoiceCommand` (no keyword rule matched):
take a screenshot and, when one is available, route the transcript as a spoken
question into `performAnalysis`. -/
def voiceRoutedAnalysis (screenshot : Option String) (result : Except Unit JSValue)
    (s : MachineState) : MachineState × Bool :=
  match screenshot with
  | some _ => performAnalysis result s
  | none => (s, false)

/-! ## Voice command interpreter (processVoiceCommand, src/App.tsx) -/

/-- JavaScript `String.prototype.includes`: substring containment. -/
def jsIncludes (s sub : String) : Bool :=
  decide (sub.toList <:+: s.toList)

/-- JavaScript `String.prototype.toLowerCase` (the transcripts and keywords are
ASCII, where it is the character-wise lower-casing). -/
def jsToLower (s : String) : String :=
  (s.toList.map Char.toLower).asString

/-- The action a recognized transcript is mapped to. -/
inductive VoiceAction where
  | goNext
  | goPrevious
  | repeatLesson
  | teachIntent
  | analyzeQuestion
deriving DecidableEq

def matchesNextKw (lower : String) : Bool :=
  jsIncludes lower "next lesson" || jsIncludes lower "move to next" || jsIncludes lower "skip"

def matchesPrevKw (lower : String) : Bool :=
  jsIncludes lower "previous lesson" || jsIncludes lower "go back"

def matchesRepeatKw (lower : String) : Bool :=
  jsIncludes lower "again" || jsIncludes lower "repeat" || jsIncludes lower "restart"

def matchesTeachKw (lower : String) : Bool :=
  jsIncludes lower "how to" || jsIncludes lower "show me" || jsIncludes lower "teach me"

/-- The classification performed by `processVoiceCommand`: the transcript is
lower-cased and the keyword groups are tried in source order; the first match
decides the action, with a spoken-question analysis as the default. -/
def processVoiceCommand (transcript : String) : VoiceAction :=
  let lower := jsToLower transcript
  if matchesNextKw lower then .goNext
  else if matchesPrevKw lower then .goPrevious
  else if matchesRepeatKw lower then .repeatLesson
  else if matchesTeachKw lower then .teachIntent
  else .analyzeQuestion

/-! ## Lesson navigation (handleNext / handlePrevious, src/App.tsx) -/

/-- JavaScript `Array.prototype.findIndex` on the lesson queue: the first index
whose lesson has the given id, `-1` if none. -/
def jsFindIndex (queue : List Lesson) (targetId : String) : Int :=
  match queue.findIdx? (fun l => l.id == targetId) with
  | some i => (i : Int)
  | none => -1

/-- `handleNext`: `loadLesson(queue[(idx + 1) % queue.length])`.  The result is
the lesson passed to `loadLesson`, `none` when the index is out of range
(JavaScript would index with `NaN` on an empty queue and pass `undefined`).
The dividend `idx + 1` is non-negative (`findIndex ≥ -1`), where JavaScript's
remainder agrees with `Int.emod`. -/
def handleNext (queue : List Lesson) (cur : Lesson) : Option Lesson :=
  let idx := jsFindIndex queue cur.id
  let nextIndex := (idx + 1) % (queue.length : Int)
  queue.get? nextIndex.toNat

/-- `handlePrevious`: loads `queue[idx - 1]` only when `idx - 1 ≥ 0`;
otherwise no lesson is loaded (`none`). -/
def handlePrevious (queue : List Lesson) (cur : Lesson) : Option Lesson :=
  let idx := jsFindIndex queue cur.id
  let prevIndex := idx - 1
  if 0 ≤ prevIndex then queue.get? prevIndex.toNat else none

/-! ## Sentence decomposition (handleSentenceSubmit, src/App.tsx) -/

/-- `rawWord.replace(/[^A-Za-z]/g, '').toUpperCase()`: strip every character
that is not an ASCII letter, then upper-case. -/
def cleanWord (raw : String) : String :=
  ((raw.toList.filter Char.isAlpha).map Char.toUpper).asString

/-- JavaScript `String.prototype.trim`: drop whitespace from both ends. -/
def jsTrim (s : String) : String :=
  (((s.toList.dropWhile Char.isWhitespace).reverse.dropWhile Char.isWhitespace).reverse).asString

def splitWsAux : List Char → List Char → List String
  | [], [] => []
  | [], cur => [cur.reverse.asString]
  | c :: cs, cur =>
    if c.isWhitespace then
      if cur = [] then splitWsAux cs []
      else cur.reverse.asString :: splitWsAux cs []
    else splitWsAux cs (c :: cur)

/-- `s.split(/\s+/)` on a trimmed string: the maximal whitespace-free tokens
of `s` in order. -/
def splitOnWhitespace (s : String) : List String :=
  splitWsAux s.toList []

/-- The per-class image-generation prompt template for multi-letter words. -/
def wordPrompt (word : String) : String :=
  "educational infographic illustration of hands signing the word \"" ++ word ++
    "\" in ASL, showing motion lines, arrows indicating movement, and facial expression if necessary, photorealistic style, white background"

/-- The per-class image-generation prompt template for single letters. -/
def letterPrompt (word : String) : String :=
  "photorealistic close-up of a hand signing ASL letter " ++ word ++
    ", neutral background, 4k"

/-- The lesson built for the cleaned token `word` at position `index` of
`total` raw words (`now` models `Date.now()`). -/
def mkSeqLesson (now index total : Nat) (word : String) : Lesson :=
  { id := "seq-" ++ toString now ++ "-" ++ toString index,
    target := word,
    description := "Step " ++ toString (index + 1) ++ " of " ++ toString total ++
      ": Sign '" ++ word ++ "'",
    difficulty := if word.length > 1 then .Intermediate else .Beginner,
    prompt := if word.length > 1 then wordPrompt word else letterPrompt word }

/-- The `rawWords.map(..).filter(Boolean)` pipeline of `handleSentenceSubmit`:
clean each raw word, drop the ones that clean to empty, and build a lesson for
each survivor. -/
def lessonsOfWords (now : Nat) (rawWords : List String) : List Lesson :=
  rawWords.enum.filterMap (fun p =>
    let word := cleanWord p.2
    if word = "" then none
    else some (mkSeqLesson now p.1 rawWords.length word))

/-- The lessons `handleSentenceSubmit` decomposes `input` into. -/
def sentenceLessons (now : Nat) (input : String) : List Lesson :=
  lessonsOfWords now (splitOnWhitespace (jsTrim input))

/-- `handleSentenceSubmit` from src/App.tsx, restricted to the queue and
current-lesson state it updates: blank input and an empty decomposition are
no-ops; otherwise the decomposed lessons replace the queue and the first one is
loaded. -/
def handleSentenceSubmit (now : Nat) (input : String)
    (queue : List Lesson) (cur : Lesson) : List Lesson × Lesson :=
  if jsTrim input = "" then (queue, cur)
  else
    let newLessons := sentenceLessons now input
    if newLessons = [] then (queue, cur)
    else (newLessons, newLessons.headD cur)

/-- Spec-side decomposition, following the claim's words: split on whitespace,
strip non-alphabetic characters from each token, uppercase, discard empty
tokens, and classify each survivor as a Beginner single-letter lesson or an
Intermediate multi-letter "word" lesson with a per-class prompt template.
Stated on the token list; compared against `lessonsOfWords`. -/
def specTokenLessons (rawWords : List String) : List (String × Difficulty × String) :=
  ((rawWords.map cleanWord).filter (fun w => w ≠ "")).map
    (fun w => (w, (if w.length > 1 then Difficulty.Intermediate else Difficulty.Beginner),
      if w.length > 1 then wordPrompt w else letterPrompt w))

/-! ## Concrete fixtures used by witnesses -/

def sampleLesson : Lesson :=
  { id := "A", target := "A", description := "", difficulty := .Beginner, prompt := "" }

def analyzingState : MachineState :=
  { appState := .ANALYZING, feedback := none, progress := INITIAL_PROGRESS,
    currentLesson := sampleLesson }

def waitingState : MachineState :=
  { appState := .WAITING_FOR_USER, feedback := none, progress := INITIAL_PROGRESS,
    currentLesson := sampleLesson }

/-! ## Theorems -/

/-- Helper: a string with a non-empty prefix is non-empty. -/
theorem append_ne_empty (s t : String) (h : s ≠ "") : s ++ t ≠ "" := by
  intro heq
  apply h
  have hd := congrArg String.data heq
  rw [String.data_append] at hd
  have hnil : s.data = [] := (List.append_eq_nil.mp hd).1
  exact String.ext hnil

/-- Helper: every branch of the mock fallback produces a non-empty message. -/
theorem analyzeFallback_message_ne_empty (rand : FallbackRand) (target : String)
    (spokenQuestion : Option String) :
    (analyzeFallback rand target spokenQuestion).message ≠ "" := by
  cases spokenQuestion with
  | some q =>
    exact append_ne_empty _ _ (append_ne_empty _ _ (by decide))
  | none =>
    by_cases hd : rand.isSuccessDraw
    · simp [analyzeFallback, hd]
      exact append_ne_empty _ _ (append_ne_empty _ _ (by decide))
    · simp [analyzeFallback, hd]
      obtain ⟨v, hv⟩ := rand.errIdx
      interval_cases v
      · simp [fallbackErrors]
        exact append_ne_empty _ _ (append_ne_empty _ _ (by decide))
      · simp [fallbackErrors]
      · simp [fallbackErrors]

/-- Helper: the object literal of any `FeedbackResponse` carries a boolean
`success` field. -/
theorem toJS_getField_success (r : FeedbackResponse) :
    r.toJS.getField "success" = .bool r.success := by
  cases r with
  | mk success message correctionPrompt => cases correctionPrompt <;> rfl

/-- Helper: the object literal of any `FeedbackResponse` carries its message. -/
theorem toJS_getField_message (r : FeedbackResponse) :
    r.toJS.getField "message" = .str r.message := by
  cases r with
  | mk success message correctionPrompt => cases correctionPrompt <;> rfl

/-- Helper: the mock fallback's object literal is a well-formed
`FeedbackResponse` value. -/
theorem analyzeFallback_wellFormed (rand : FallbackRand) (target : String)
    (spokenQuestion : Option String) :
    isWellFormedFeedback ((analyzeFallback rand target spokenQuestion).toJS) = true := by
  unfold isWellFormedFeedback
  rw [toJS_getField_success, toJS_getField_message]
  simp [bne_iff_ne]
  exact analyzeFallback_message_ne_empty rand target spokenQuestion

/-- Helper: whenever the primary path throws, `analyzeHandShape` returns the
mock fallback. -/
theorem analyzeHandShape_eq_fallback (env : PrimaryPath) (rand : FallbackRand)
    (target : String) (spokenQuestion : Option String)
    (h : primaryThrows env = true) :
    analyzeHandShape env rand target spokenQuestion =
      (analyzeFallback rand target spokenQuestion).toJS := by
  cases env with
  | noApiKey => rfl
  | requestThrow => rfl
  | response tp =>
    match tp with
    | some (.error e) => rfl
    | some (.ok v) => simp [primaryThrows] at h
    | none => simp [primaryThrows] at h

/-- C1, counterexample: a primary response whose text is empty (the code
substitutes the literal "\x7b\x7d", which parses as JSON but does not have the
`FeedbackResponse` shape) does not activate the fallback — `analyzeHandShape`
returns the parsed empty object as-is, which has no boolean `success` flag and
no message, contradicting "returns a locally synthesized FeedbackResponse with
a boolean success flag and a non-empty message" for malformed structured
responses. -/
theorem C1_counterexample :
    primaryThrows (.response none) = false ∧
    analyzeHandShape (.response none) ⟨true, 0⟩ "A" none = JSValue.obj [] ∧
    isWellFormedFeedback (JSValue.obj []) = false ∧
    (JSValue.obj []).getField "success" = .undefined := by
  exact ⟨rfl, rfl, rfl, rfl⟩

/-- C1 (amended): the fallback activates exactly when the primary path throws
— missing credentials, a rejected request, or response text that fails to
parse as JSON — and then a locally synthesized `FeedbackResponse` with a
boolean success flag and a non-empty message is returned instead of the
failure; a response that parses as JSON is returned as-is, even when it does
not have the `FeedbackResponse` shape. -/
theorem C1_fallback_on_primary_throw (env : PrimaryPath) (rand : FallbackRand)
    (target : String) (spokenQuestion : Option String)
    (h : primaryThrows env = true) :
    analyzeHandShape env rand target spokenQuestion =
      (analyzeFallback rand target spokenQuestion).toJS ∧
    isWellFormedFeedback ((analyzeFallback rand target spokenQuestion).toJS) = true :=
  ⟨analyzeHandShape_eq_fallback env rand target spokenQuestion h,
   analyzeFallback_wellFormed rand target spokenQuestion⟩

/-- C1, witness: with no API key the fallback is substituted and is
well-formed. -/
theorem C1_fallback_on_primary_throw_witness :
    analyzeHandShape .noApiKey ⟨true, 0⟩ "A" none =
      (analyzeFallback ⟨true, 0⟩ "A" none).toJS ∧
    isWellFormedFeedback ((analyzeFallback ⟨true, 0⟩ "A" none).toJS) = true :=
  C1_fallback_on_primary_throw .noApiKey ⟨true, 0⟩ "A" none rfl

/-- C3: in `Analyzing` or `GeneratingReference`, every way of triggering a
frame submission — `performAnalysis` directly, manual capture, an auto-capture
tick, or the voice-routed analysis — leaves the state, feedback and progress
unchanged and starts no analysis operation (the boolean is `false`). -/
theorem C3_busy_states_no_op (s : MachineState) (r : Except Unit JSValue)
    (img : Option String) (auto tab : Bool)
    (h : s.appState = .ANALYZING ∨ s.appState = .GENERATING_REF) :
    performAnalysis r s = (s, false) ∧
    handleCapture img r s = (s, false) ∧
    autoCaptureTick auto tab img r s = (s, false) ∧
    voiceRoutedAnalysis img r s = (s, false) := by
  have hpa : performAnalysis r s = (s, false) := by
    simp [performAnalysis, performAnalysisStart, h]
  have h1 : s.appState ≠ .WAITING_FOR_USER := by
    rcases h with h | h <;> rw [h] <;> simp
  have h2 : s.appState ≠ .FEEDBACK := by
    rcases h with h | h <;> rw [h] <;> simp
  have h3 : s.appState ≠ .SUCCESS := by
    rcases h with h | h <;> rw [h] <;> simp
  refine ⟨hpa, ?_, ?_, ?_⟩
  · simp [handleCapture, h1, h2, h3]
  · simp [autoCaptureTick, h1, h2, h3]
  · cases img with
    | none => rfl
    | some i => simpa [voiceRoutedAnalysis] using hpa

/-- C3, witness: submitting while `Analyzing` is a no-op. -/
theorem C3_busy_states_no_op_witness :
    performAnalysis (.error ()) analyzingState = (analyzingState, false) :=
  (C3_busy_states_no_op analyzingState (.error ()) none false false (Or.inl rfl)).1

/-- C4: an accepted frame submission enters `Analyzing` with feedback cleared;
if the analysis result has a truthy success flag the machine moves to
`Success`, adds 50 XP and marks the current lesson's target learned; on a
falsy success flag it moves to `Feedback` without touching progress; and if
the operation throws it reverts to `WaitingForUser` with no feedback
recorded. -/
theorem C4_accepted_submission (s : MachineState) (v : JSValue)
    (h : ¬(s.appState = .ANALYZING ∨ s.appState = .GENERATING_REF)) :
    performAnalysisStart s = ({ s with appState := .ANALYZING, feedback := none }, true) ∧
    ((v.getField "success").truthy = true →
      performAnalysis (.ok v) s =
        ({ s with appState := .SUCCESS, feedback := some v,
                  progress := markLearned s.currentLesson.target (addXP 50 s.progress) }, true)) ∧
    ((v.getField "success").truthy = false →
      performAnalysis (.ok v) s =
        ({ s with appState := .FEEDBACK, feedback := some v }, true)) ∧
    performAnalysis (.error ()) s =
      ({ s with appState := .WAITING_FOR_USER, feedback := none }, true) := by
  have hstart : performAnalysisStart s =
      ({ s with appState := .ANALYZING, feedback := none }, true) := by
    simp [performAnalysisStart, h]
  refine ⟨hstart, ?_, ?_, ?_⟩
  · intro ht
    simp [performAnalysis, hstart, performAnalysisResolve, ht]
  · intro hf
    simp [performAnalysis, hstart, performAnalysisResolve, hf]
  · simp [performAnalysis, hstart, performAnalysisResolve]

/-- C4, witness: a thrown analysis from `WaitingForUser` reverts to
`WaitingForUser` with no feedback. -/
theorem C4_accepted_submission_witness :
    performAnalysis (.error ()) waitingState =
      ({ waitingState with appState := .WAITING_FOR_USER, feedback := none }, true) :=
  (C4_accepted_submission waitingState (JSValue.obj []) (by simp [waitingState])).2.2.2

/-- C10: whenever the primary path throws and a spoken question was supplied,
the fallback response has `success = false` and a correction-image prompt for
the target; routed through `performAnalysis` from any accepting state, the
machine therefore moves to `Feedback` — never `Success` — and the progress
record is untouched, regardless of the random draw. -/
theorem C10_spoken_fallback_not_success (env : PrimaryPath) (rand : FallbackRand)
    (q : String) (s : MachineState)
    (henv : primaryThrows env = true)
    (hs : ¬(s.appState = .ANALYZING ∨ s.appState = .GENERATING_REF)) :
    (analyzeHandShape env rand s.currentLesson.target (some q)).getField "success" =
      .bool false ∧
    (analyzeHandShape env rand s.currentLesson.target (some q)).getField "correctionPrompt" =
      .str ("photorealistic hand signing ASL letter " ++ s.currentLesson.target) ∧
    performAnalysis (.ok (analyzeHandShape env rand s.currentLesson.target (some q))) s =
      ({ s with appState := .FEEDBACK,
                feedback := some (analyzeHandShape env rand s.currentLesson.target (some q)) },
       true) ∧
    (performAnalysis (.ok (analyzeHandShape env rand s.currentLesson.target (some q))) s).1.progress
      = s.progress := by
  have hv : analyzeHandShape env rand s.currentLesson.target (some q) =
      (analyzeFallback rand s.currentLesson.target (some q)).toJS :=
    analyzeHandShape_eq_fallback env rand s.currentLesson.target (some q) henv
  have hsucc : (analyzeHandShape env rand s.currentLesson.target (some q)).getField "success" =
      .bool false := by
    rw [hv]; exact toJS_getField_success _
  have hstart : performAnalysisStart s =
      ({ s with appState := .ANALYZING, feedback := none }, true) := by
    simp [performAnalysisStart, hs]
  have hperf : performAnalysis (.ok (analyzeHandShape env rand s.currentLesson.target (some q))) s =
      ({ s with appState := .FEEDBACK,
                feedback := some (analyzeHandShape env rand s.currentLesson.target (some q)) },
       true) := by
    simp [performAnalysis, hstart, performAnalysisResolve, hsucc, JSValue.truthy]
  refine ⟨hsucc, ?_, hperf, ?_⟩
  · rw [hv]; rfl
  · rw [hperf]

/-- C10, witness: with no API key, a spoken question from `WaitingForUser`
leaves the progress record untouched. -/
theorem C10_spoken_fallback_not_success_witness :
    (performAnalysis
      (.ok (analyzeHandShape .noApiKey ⟨true, 0⟩ waitingState.currentLesson.target
        (some "how do I sign this")))
      waitingState).1.progress = waitingState.progress :=
  (C10_spoken_fallback_not_success .noApiKey ⟨true, 0⟩ "how do I sign this"
    waitingState rfl (by simp [waitingState])).2.2.2

/-- C5: with the current lesson found at index `i` of the queue, "next" loads
the lesson at index `(i + 1) mod length` (an index that always exists, and
that wraps from the last element to the first), while "previous" loads index
`i - 1` when `i > 0` and loads nothing at index 0. -/
theorem C5_navigation (queue : List Lesson) (cur : Lesson) (i : Nat)
    (h : queue.findIdx? (fun l => l.id == cur.id) = some i) :
    handleNext queue cur = queue.get? ((i + 1) % queue.length) ∧
    (queue.get? ((i + 1) % queue.length)).isSome = true ∧
    (i + 1 = queue.length → handleNext queue cur = queue.get? 0) ∧
    (i = 0 → handlePrevious queue cur = none) ∧
    (∀ j, i = j + 1 → handlePrevious queue cur = queue.get? j) := by
  have hidx : jsFindIndex queue cur.id = (i : Int) := by
    simp [jsFindIndex, h]
  have hlt : i < queue.length :=
    (List.findIdx?_eq_some_iff_findIdx_eq.mp h).1
  have hpos : 0 < queue.length := Nat.lt_of_le_of_lt (Nat.zero_le i) hlt
  have hnext : handleNext queue cur = queue.get? ((i + 1) % queue.length) := by
    unfold handleNext
    rw [hidx]
    congr 1
  refine ⟨hnext, ?_, ?_, ?_, ?_⟩
  · have : (i + 1) % queue.length < queue.length := Nat.mod_lt _ hpos
    simp [List.get?_eq_getElem?, List.getElem?_eq_getElem this]
  · intro hwrap
    rw [hnext, hwrap, Nat.mod_self]
  · intro h0
    unfold handlePrevious
    rw [hidx, h0]
    simp
  · intro j hj
    unfold handlePrevious
    rw [hidx, hj]
    have : ((j : Int) + 1) - 1 = (j : Int) := by ring
    push_cast
    rw [this]
    simp [Int.toNat_natCast]

/-- C5, witness: in the three-lesson alphabet queue, "next" from the last
lesson wraps to the first, and "previous" from the first is a no-op. -/
theorem C5_navigation_witness :
    handleNext ALPHABET_LESSONS (ALPHABET_LESSONS.get ⟨2, by decide⟩) =
      ALPHABET_LESSONS.get? ((2 + 1) % ALPHABET_LESSONS.length) ∧
    handlePrevious ALPHABET_LESSONS (ALPHABET_LESSONS.get ⟨0, by decide⟩) = none :=
  ⟨(C5_navigation ALPHABET_LESSONS (ALPHABET_LESSONS.get ⟨2, by decide⟩) 2 (by decide)).1,
   (C5_navigation ALPHABET_LESSONS (ALPHABET_LESSONS.get ⟨0, by decide⟩) 0 (by decide)).2.2.2.1 rfl⟩

/-- Helper: the enumerate-clean-filter-build pipeline of
`handleSentenceSubmit` projects, at every start index, to the spec-side
decomposition of the token list. -/
theorem enumFrom_lessons_spec (now total : Nat) (ws : List String) :
    ∀ n : Nat,
      ((ws.enumFrom n).filterMap (fun p =>
        let word := cleanWord p.2
        if word = "" then none
        else some (mkSeqLesson now p.1 total word))).map
          (fun l => (l.target, l.difficulty, l.prompt)) =
      specTokenLessons ws := by
  induction ws with
  | nil => intro n; rfl
  | cons w ws ih =>
    intro n
    by_cases hw : cleanWord w = ""
    · simp [List.enumFrom, hw, specTokenLessons] at ih ⊢
      exact ih (n + 1)
    · simp [List.enumFrom, hw, specTokenLessons, mkSeqLesson] at ih ⊢
      exact ih (n + 1)

set_option maxRecDepth 10000 in
/-- C6: the decomposition of `handleSentenceSubmit` realizes the spec-side
pipeline (split on whitespace, strip non-alphabetic characters, uppercase,
discard empty tokens, classify single-letter as Beginner and multi-letter as
Intermediate with per-class prompt templates); "Hello World!" yields exactly
the word lessons HELLO and WORLD, "A" yields one single-letter lesson, and a
decomposition with zero surviving lessons leaves the queue and the current
lesson unchanged. -/
theorem C6_sentence_decomposition :
    (∀ now rawWords,
      (lessonsOfWords now rawWords).map (fun l => (l.target, l.difficulty, l.prompt)) =
        specTokenLessons rawWords) ∧
    ((sentenceLessons 0 "Hello World!").map (fun l => (l.target, l.difficulty)) =
      [("HELLO", .Intermediate), ("WORLD", .Intermediate)]) ∧
    ((sentenceLessons 0 "Hello World!").map (fun l => l.prompt) =
      [wordPrompt "HELLO", wordPrompt "WORLD"]) ∧
    ((sentenceLessons 0 "A").map (fun l => (l.target, l.difficulty, l.prompt)) =
      [("A", .Beginner, letterPrompt "A")]) ∧
    (∀ now input queue cur, sentenceLessons now input = [] →
      handleSentenceSubmit now input queue cur = (queue, cur)) ∧
    (∀ queue cur, handleSentenceSubmit 7 "123 !!!" queue cur = (queue, cur)) := by
  have hnoop : ∀ now input queue cur, sentenceLessons now input = [] →
      handleSentenceSubmit now input queue cur = (queue, cur) := by
    intro now input queue cur hempty
    unfold handleSentenceSubmit
    by_cases ht : jsTrim input = ""
    · simp [ht]
    · simp [ht, hempty]
  refine ⟨?_, by decide, by decide, by decide, hnoop,
    fun queue cur => hnoop 7 "123 !!!" queue cur (by decide)⟩
  intro now rawWords
  unfold lessonsOfWords
  rw [List.enum]
  exact enumFrom_lessons_spec now rawWords.length rawWords 0

set_option maxRecDepth 10000 in
/-- C6, witness: a sentence with no alphabetic token leaves the queue and the
current lesson unchanged. -/
theorem C6_sentence_decomposition_witness :
    handleSentenceSubmit 3 "?? 12" [] sampleLesson = ([], sampleLesson) :=
  C6_sentence_decomposition.2.2.2.2.1 3 "?? 12" [] sampleLesson (by decide)

set_option maxRecDepth 10000 in
/-- C7: the voice interpreter classifies a transcript by case-insensitive
substring matching in a fixed priority order — navigation first, then repeat,
then teach-intent, then the spoken-question default — and the first matching
rule wins even when several rules match: a transcript containing both "skip"
and "go back" advances. -/
theorem C7_voice_priority :
    (∀ t, matchesNextKw (jsToLower t) = true → processVoiceCommand t = .goNext) ∧
    (∀ t, matchesNextKw (jsToLower t) = false → matchesPrevKw (jsToLower t) = true →
      processVoiceCommand t = .goPrevious) ∧
    (∀ t, matchesNextKw (jsToLower t) = false → matchesPrevKw (jsToLower t) = false →
      matchesRepeatKw (jsToLower t) = true → processVoiceCommand t = .repeatLesson) ∧
    (∀ t, matchesNextKw (jsToLower t) = false → matchesPrevKw (jsToLower t) = false →
      matchesRepeatKw (jsToLower t) = false → matchesTeachKw (jsToLower t) = true →
      processVoiceCommand t = .teachIntent) ∧
    (∀ t, matchesNextKw (jsToLower t) = false → matchesPrevKw (jsToLower t) = false →
      matchesRepeatKw (jsToLower t) = false → matchesTeachKw (jsToLower t) = false →
      processVoiceCommand t = .analyzeQuestion) ∧
    (jsIncludes (jsToLower "Please skip this and go back") "skip" = true ∧
     jsIncludes (jsToLower "Please skip this and go back") "go back" = true ∧
     processVoiceCommand "Please skip this and go back" = .goNext) := by
  refine ⟨?_, ?_, ?_, ?_, ?_, by decide⟩ <;>
    · intro t
      intros
      simp [processVoiceCommand, *]

set_option maxRecDepth 10000 in
/-- C7, witness: "skip" alone advances to the next lesson. -/
theorem C7_voice_priority_witness : processVoiceCommand "skip" = .goNext :=
  C7_voice_priority.1 "skip" (by decide)

/-- C2, counterexample: when a stored record exists but fails to parse, the
`useProgress` initializer propagates the parse error instead of returning the
default record — contradicting "returns the default record ... when the stored
record fails to parse, never raising an error to the caller". -/
theorem C2_counterexample :
    loadProgress (some (.error ())) = .error () ∧
    loadProgress (some (.error ())) ≠ .ok INITIAL_PROGRESS.toJS := by
  exact ⟨rfl, fun h => by simp [loadProgress] at h⟩

/-- C2 (amended): `load()` returns the stored record when a parseable record
exists and the default record (zero XP, Beginner level, 1-day streak, empty
learned-sign set) when no record exists; when a stored record exists but fails
to parse, the parse error propagates to the caller. -/
theorem C2_load_behavior :
    loadProgress none = .ok INITIAL_PROGRESS.toJS ∧
    INITIAL_PROGRESS = { xp := 0, level := .Beginner, streakDays := 1, learnedSigns := [] } ∧
    (∀ v, loadProgress (some (.ok v)) = .ok v) ∧
    (∀ e, loadProgress (some (.error e)) = .error e) := by
  refine ⟨rfl, rfl, fun v => rfl, fun e => rfl⟩

/-- C2, witness: the default record is returned when no record exists. -/
theorem C2_load_behavior_witness :
    loadProgress none = .ok INITIAL_PROGRESS.toJS :=
  C2_load_behavior.1

/-- C8: `addXP` is strictly additive and commutes with itself — applying
`addXP m` then `addXP n` equals applying `addXP (m + n)` once and is
order-independent — and XP never decreases across any sequence of `addXP`
calls with non-negative amounts. -/
theorem C8_addXP_additive (p : StudentProgress) (m n : Int)
    (hm : 0 ≤ m) (hn : 0 ≤ n) :
    addXP n (addXP m p) = addXP (m + n) p ∧
    addXP n (addXP m p) = addXP m (addXP n p) ∧
    (addXP 50 (addXP 50 p)).xp = (addXP 100 p).xp ∧
    p.xp ≤ (addXP m p).xp ∧
    (∀ amounts : List Int, (∀ a ∈ amounts, 0 ≤ a) →
      p.xp ≤ (amounts.foldl (fun q a => addXP a q) p).xp) := by
  have mono : ∀ (amounts : List Int) (q : StudentProgress),
      (∀ a ∈ amounts, 0 ≤ a) →
      q.xp ≤ (amounts.foldl (fun r a => addXP a r) q).xp := by
    intro amounts
    induction amounts with
    | nil => intro q _; exact le_refl _
    | cons a as ih =>
      intro q hall
      have h1 : q.xp ≤ (addXP a q).xp := by
        simp [addXP]
        exact hall a (by simp)
      have h2 := ih (addXP a q) (fun b hb => hall b (by simp [hb]))
      calc q.xp ≤ (addXP a q).xp := h1
        _ ≤ _ := h2
  refine ⟨?_, ?_, ?_, ?_, fun amounts h => mono amounts p h⟩
  · simp [addXP, add_assoc]
  · simp [addXP]; omega
  · simp [addXP]; omega
  · simp [addXP]; omega

/-- C8, witness: applying amounts 50 then 50 from the initial record equals
applying 100 once. -/
theorem C8_addXP_additive_witness :
    addXP 50 (addXP 50 INITIAL_PROGRESS) = addXP (50 + 50) INITIAL_PROGRESS :=
  (C8_addXP_additive INITIAL_PROGRESS 50 50 (by decide) (by decide)).1

/-- Helper: `markLearned` preserves the no-duplicates invariant of the
learned-sign list. -/
theorem markLearned_nodup (s : String) (p : StudentProgress)
    (h : p.learnedSigns.Nodup) : (markLearned s p).learnedSigns.Nodup := by
  by_cases hm : s ∈ p.learnedSigns
  · simpa [markLearned, hm] using h
  · simp [markLearned, hm, List.nodup_append, h]

/-- C9: `markLearned` is idempotent (marking twice equals marking once), a
call with an already-present identifier returns the record unchanged, the
marked sign is in the learned set, the operation preserves the no-duplicates
invariant, and every sequence of `markLearned` calls starting from the initial
record yields a duplicate-free learned set. -/
theorem C9_markLearned_idempotent (p : StudentProgress) (s : String) :
    markLearned s (markLearned s p) = markLearned s p ∧
    (s ∈ p.learnedSigns → markLearned s p = p) ∧
    s ∈ (markLearned s p).learnedSigns ∧
    (p.learnedSigns.Nodup → (markLearned s p).learnedSigns.Nodup) ∧
    (∀ signs : List String,
      ((signs.foldl (fun q a => markLearned a q) INITIAL_PROGRESS).learnedSigns).Nodup) := by
  have hmem : s ∈ (markLearned s p).learnedSigns := by
    by_cases hm : s ∈ p.learnedSigns
    · simpa [markLearned, hm] using hm
    · simp [markLearned, hm]
  have hfold : ∀ (signs : List String) (q : StudentProgress),
      q.learnedSigns.Nodup →
      ((signs.foldl (fun r a => markLearned a r) q).learnedSigns).Nodup := by
    intro signs
    induction signs with
    | nil => intro q hq; exact hq
    | cons a as ih =>
      intro q hq
      exact ih (markLearned a q) (markLearned_nodup a q hq)
  refine ⟨?_, ?_, hmem, markLearned_nodup s p,
    fun signs => hfold signs INITIAL_PROGRESS (by simp [INITIAL_PROGRESS])⟩
  · conv_lhs => rw [markLearned]
    rw [if_pos hmem]
  · intro hm
    simp [markLearned, hm]

/-- C9, witness: marking "A" twice from the initial record equals marking it
once. -/
theorem C9_markLearned_idempotent_witness :
    markLearned "A" (markLearned "A" INITIAL_PROGRESS) =
      markLearned "A" INITIAL_PROGRESS :=
  (C9_markLearned_idempotent INITIAL_PROGRESS "A").1

end SignSynth
